import Mathlib

set_option autoImplicit false

/-!
Shallow embedding of the force-directed-graph component:
the identity and defaults utilities, the simulation adapter over the
external force-layout library, the static graph renderer, and the
interactive overlay, together with theorems about them.

JavaScript conventions used throughout the embedding:
a field of type Option alpha models a key that may be absent (none);
a field of type Option (Option alpha) models a key that may be absent
(outer none) or present with the undefined value (some none); reading
an absent key yields undefined.
-/

namespace ReactVisForce

/-- A style object is a bag of string-valued css properties. -/
abbrev StyleObj := List (String × String)

/-- A link endpoint: callers supply the id as a string; after a simulation
run the link force has resolved it to a node object carrying that id. -/
inductive Endpoint where
  | str (s : String)
  | obj (id : String)
  deriving DecidableEq

/-- A node record on the public data surface: a required string id plus
optional logical and visual fields, the transient simulation position, and
the style fields the interactive overlay writes. -/
structure NodeRec where
  id : String
  radius : Option ℚ := none
  opacity : Option (Option ℚ) := none
  color : Option String := none
  stroke : Option String := none
  strokeWidth : Option ℚ := none
  showLabel : Option Bool := none
  x : Option ℚ := none
  y : Option ℚ := none
  styles : Option StyleObj := none
  labelStyles : Option StyleObj := none
  style : Option StyleObj := none
  labelStyle : Option StyleObj := none
  deriving DecidableEq

/-- A link record on the public data surface: endpoints, the logical value,
and optional visual fields. -/
structure LinkRec where
  source : Endpoint
  target : Endpoint
  value : Option ℚ := none
  opacity : Option (Option ℚ) := none
  color : Option String := none
  style : Option StyleObj := none
  deriving DecidableEq

/-- nodeId from force-utils: given a force-directed graph node, return its
id field, unmodified. -/
def nodeId (node : NodeRec) : String :=
  node.id

/-- JavaScript evaluation of the template fragment
link.source.id, or-else link.source, coerced to a string: the id property
of a string value is undefined, so a string endpoint falls through to the
string itself; an object endpoint yields its id unless that id is the
empty string (falsy), in which case the or-expression keeps the object
and the template literal renders it as [object Object]. -/
def endpointText : Endpoint → String
  | Endpoint.str s => s
  | Endpoint.obj i => if i = "" then "[object Object]" else i

/-- linkId from force-utils: the string sourceText, arrow, targetText where
each endpoint text is computed by the or-expression above. -/
def linkId (link : LinkRec) : String :=
  endpointText link.source ++ "=>" ++ endpointText link.target

/-- Calls made on the external force-layout simulation object. -/
inductive SimCall where
  | restart
  | tick
  | stop
  deriving DecidableEq

/-- The defensive node copy seeded into the simulation: createSimulation
keeps only the id and radius fields of each caller node. -/
structure SimNode where
  id : String
  radius : Option ℚ := none
  deriving DecidableEq

/-- The defensive link copy seeded into the simulation: createSimulation
keeps only the source, target and value fields of each caller link. -/
structure SimLink where
  source : Endpoint
  target : Endpoint
  value : Option ℚ := none
  deriving DecidableEq

/-- Model of the external force-layout simulation object (the spec scopes
the physics out as an external collaborator; only the interface is
modelled). The trace records every restart, tick and stop call in order;
running models the internal clock, which schedules no further ticks once
stopped; simId stands for the object identity of the simulation; the
remaining fields hold the configuration applied by createSimulation. -/
structure Simulation where
  simId : Nat := 0
  running : Bool := false
  nodes : List SimNode := []
  links : List SimLink := []
  centerX : ℚ := 0
  centerY : ℚ := 0
  alpha : Option ℚ := none
  alphaDecay : Option ℚ := none
  alphaMin : Option ℚ := none
  alphaTarget : Option ℚ := none
  velocityDecay : Option ℚ := none
  chargeStrengthSet : Bool := false
  trace : List SimCall := []
  deriving DecidableEq

/-- The restart method of the external simulation: starts the internal
clock. -/
def Simulation.restart (s : Simulation) : Simulation :=
  { s with running := true, trace := s.trace ++ [SimCall.restart] }

/-- The tick method of the external simulation: advances the physics one
discrete step (the physics itself is out of scope; the call is recorded). -/
def Simulation.tick (s : Simulation) : Simulation :=
  { s with trace := s.trace ++ [SimCall.tick] }

/-- The stop method of the external simulation: halts the internal clock,
so that no further ticking occurs. -/
def Simulation.stop (s : Simulation) : Simulation :=
  { s with running := false, trace := s.trace ++ [SimCall.stop] }

/-- The loop body of runSimulation: let i = 0; while i is less than steps,
call tick and increment i. -/
def runSimulationLoop (simulation : Simulation) (i steps : Nat) : Simulation :=
  if i < steps then runSimulationLoop simulation.tick (i + 1) steps
  else simulation
termination_by steps - i
decreasing_by omega

/-- runSimulation from force-utils: restart the simulation, run the tick
loop to fruition, stop the simulation and return it. The steps argument
defaults to 300. -/
def runSimulation (simulation : Simulation) (steps : Nat := 300) : Simulation :=
  let simulation := simulation.restart
  let simulation := runSimulationLoop simulation 0 steps
  simulation.stop

/-- The graph data object createSimulation reads its nodes and links from. -/
structure GraphData where
  nodes : List NodeRec := []
  links : List LinkRec := []
  deriving DecidableEq

/-- The options object given to createSimulation. The renderer passes its
props here, whose public surface carries the graph data under the
top-level nodes and links keys; the data key models the options.data
object that createSimulation itself dereferences. chargeStrength is a
caller function, modelled by its presence. -/
structure SimOptions where
  width : ℚ := 900
  height : ℚ := 600
  nodes : List NodeRec := []
  links : List LinkRec := []
  data : Option GraphData := none
  alpha : Option ℚ := none
  alphaDecay : Option ℚ := none
  alphaMin : Option ℚ := none
  alphaTarget : Option ℚ := none
  velocityDecay : Option ℚ := none
  chargeStrength : Bool := false

/-- createSimulation from force-utils: builds a simulation with a link
force keyed by nodeId, a many-body charge force and a centering force at
the canvas midpoint, applies each alpha factor present in the options,
optionally overrides the charge strength, and seeds the simulation with
fresh node records keeping only id and radius and fresh link records
keeping only source, target and value. The node and link data are read
from options.data: when the options carry no data key the property access
options.data.nodes fails at runtime, modelled by none. -/
def createSimulation (options : SimOptions) : Option Simulation :=
  match options.data with
  | none => none
  | some data =>
    some
      { simId := 0
        running := true
        centerX := options.width / 2
        centerY := options.height / 2
        alpha := options.alpha
        alphaDecay := options.alphaDecay
        alphaMin := options.alphaMin
        alphaTarget := options.alphaTarget
        velocityDecay := options.velocityDecay
        chargeStrengthSet := options.chargeStrength
        nodes := data.nodes.map (fun n => { id := n.id, radius := n.radius })
        links := data.links.map
          (fun l => { source := l.source, target := l.target, value := l.value })
        trace := [] }

theorem runSimulationLoop_spec (steps : Nat) :
    ∀ (n : Nat) (s : Simulation) (i : Nat), steps - i = n →
      (runSimulationLoop s i steps).trace = s.trace ++ List.replicate n SimCall.tick ∧
      (runSimulationLoop s i steps).running = s.running ∧
      (runSimulationLoop s i steps).simId = s.simId
  | 0, s, i, h => by
    have hi : ¬ i < steps := by omega
    rw [runSimulationLoop, if_neg hi]
    simp
  | n + 1, s, i, h => by
    have hi : i < steps := by omega
    rw [runSimulationLoop, if_pos hi]
    have ih := runSimulationLoop_spec steps n s.tick (i + 1) (by omega)
    refine ⟨?_, ?_, ?_⟩
    · rw [ih.1]
      simp [Simulation.tick, List.replicate_succ]
    · rw [ih.2.1]
      rfl
    · rw [ih.2.2]
      rfl

/-- C1: for every simulation and every number of steps, runSimulation first
restarts the internal clock, then calls tick exactly steps times (exactly
300 when steps is omitted, witnessed by the default-argument conjunct),
then stops the simulation (running is false, so no further ticking
occurs), and returns the same simulation (its identity is preserved). -/
theorem c1_runSimulation_restart_ticks_stop (simulation : Simulation) (steps : Nat) :
    (runSimulation simulation steps).trace =
      simulation.trace ++ [SimCall.restart] ++ List.replicate steps SimCall.tick
        ++ [SimCall.stop] ∧
    (runSimulation simulation steps).running = false ∧
    (runSimulation simulation steps).simId = simulation.simId ∧
    runSimulation simulation = runSimulation simulation 300 := by
  have h := runSimulationLoop_spec steps steps simulation.restart 0 (by omega)
  unfold runSimulation
  refine ⟨?_, ?_, ?_, rfl⟩
  · rw [Simulation.stop, h.1]
    simp [Simulation.restart]
  · rfl
  · rw [Simulation.stop, h.2.2]
    rfl

/-- The props the renderer passes to createSimulation on its default path
(no simulationFactory): the public configuration surface, with the graph
data under the top-level nodes and links keys and no data key. -/
def rendererProps : SimOptions :=
  { width := 900
    height := 600
    nodes := [{ id := "a", radius := some 5 }, { id := "b" }]
    links := [{ source := Endpoint.str "a", target := Endpoint.str "b", value := some 4 }] }

/-- The same graph handed to createSimulation under the data key that the
function actually dereferences. -/
def dataOptions : SimOptions :=
  { width := 900
    height := 600
    data := some { nodes := rendererProps.nodes, links := rendererProps.links } }

/-- C2 (code bug): on the options object the renderer passes — graph data
under the top-level nodes and links keys, no data key — createSimulation
fails (it dereferences options.data.nodes, and options.data is absent),
instead of returning a seeded simulation; when the same graph is supplied
under the data key, the simulation is seeded with fresh copies keeping
only id and radius per node and only source, target and value per link. -/
theorem c2_createSimulation_reads_data_not_props :
    createSimulation rendererProps = none ∧
    rendererProps.nodes ≠ [] ∧
    (createSimulation dataOptions).map Simulation.nodes =
      some [{ id := "a", radius := some 5 }, { id := "b" }] ∧
    (createSimulation dataOptions).map Simulation.links =
      some [{ source := Endpoint.str "a", target := Endpoint.str "b", value := some 4 }] :=
  ⟨rfl, by decide, rfl, rfl⟩

/-- C6 counterexample: for the logical edge from a node whose id is the
empty string to node t, the raw link (string endpoints) and the
simulation-resolved link (object endpoints carrying those ids) give
different linkId strings, because the or-expression rejects the falsy
empty id on the object form and stringifies the object instead. -/
theorem c6_linkId_empty_id_counterexample :
    linkId { source := Endpoint.str "", target := Endpoint.str "t" } ≠
      linkId { source := Endpoint.obj "", target := Endpoint.obj "t" } := by
  decide

/-- C6 (amended): for every logical edge whose endpoint ids are nonempty
strings, linkId returns the string sourceId, arrow, targetId, and returns
the identical string on the raw link (string endpoints) and on the
simulation-resolved link (object endpoints carrying those ids). -/
theorem c6_linkId_raw_resolved_agree (sid tid : String)
    (hs : sid ≠ "") (ht : tid ≠ "") (v w : Option ℚ) :
    linkId { source := Endpoint.str sid, target := Endpoint.str tid, value := v } =
      sid ++ "=>" ++ tid ∧
    linkId { source := Endpoint.obj sid, target := Endpoint.obj tid, value := w } =
      sid ++ "=>" ++ tid := by
  constructor
  · rfl
  · simp [linkId, endpointText, hs, ht]

/-- Witness for C6: the amended theorem applied to the concrete edge from
a to b. -/
theorem c6_linkId_raw_resolved_agree_witness :
    ("a" : String) ≠ "" ∧ ("b" : String) ≠ "" ∧
    linkId { source := Endpoint.str "a", target := Endpoint.str "b" } = "a=>b" ∧
    linkId { source := Endpoint.obj "a", target := Endpoint.obj "b" } = "a=>b" :=
  ⟨by decide, by decide,
    (c6_linkId_raw_resolved_agree "a" "b" (by decide) (by decide) none none).1,
    (c6_linkId_raw_resolved_agree "a" "b" (by decide) (by decide) none none).2⟩

/-- The default visual attributes merged into every node record. -/
structure NodeDefaults where
  radius : ℚ
  opacity : ℚ
  color : String
  stroke : String
  strokeWidth : ℚ
  showLabel : Bool

/-- NODE_DEFAULTS from the renderer: radius 5, opacity 1, color #333,
stroke #fff, strokeWidth 1.5, showLabel false. -/
def NODE_DEFAULTS : NodeDefaults :=
  { radius := 5
    opacity := 1
    color := "#333"
    stroke := "#fff"
    strokeWidth := 3 / 2
    showLabel := false }

/-- The default visual attributes merged into every link record. -/
structure LinkDefaults where
  opacity : ℚ
  color : String

/-- LINK_DEFAULTS from the renderer: opacity 0.6, color #999. -/
def LINK_DEFAULTS : LinkDefaults :=
  { opacity := 3 / 5, color := "#999" }

/-- Object.assign of an empty object, the node defaults and the item: every
default key is present in the result; a key present on the item (even
carrying the undefined value) wins over the default; keys only the item
carries are copied through unchanged. -/
def mergeNodeDefaults (defaults : NodeDefaults) (item : NodeRec) : NodeRec :=
  { item with
    radius := some (item.radius.getD defaults.radius)
    opacity := some (item.opacity.getD (some defaults.opacity))
    color := some (item.color.getD defaults.color)
    stroke := some (item.stroke.getD defaults.stroke)
    strokeWidth := some (item.strokeWidth.getD defaults.strokeWidth)
    showLabel := some (item.showLabel.getD defaults.showLabel) }

/-- Object.assign of an empty object, the link defaults and the item, with
the same key semantics as for nodes. -/
def mergeLinkDefaults (defaults : LinkDefaults) (item : LinkRec) : LinkRec :=
  { item with
    opacity := some (item.opacity.getD (some defaults.opacity))
    color := some (item.color.getD defaults.color) }

/-- mapItemsById from the renderer: reduce over the items, assigning under
the computed key id(item) the record obtained by merging the defaults with
the item (the shape-specific merge is passed as mergeDef). A later item
under the same key silently overwrites the earlier entry, without any
error or flag. The accumulated object is modelled by its lookup
function; this is the reducer callback. -/
def _mapItemsByIdStep {α β : Type} (idF : α → String) (mergeDef : α → β)
    (obj : String → Option β) (item : α) : String → Option β :=
  fun k => if k = idF item then some (mergeDef item) else obj k

/-- mapItemsById from the renderer: the reduce of the callback above over
the items, starting from the empty object. -/
def _mapItemsById {α β : Type} (items : List α) (idF : α → String)
    (mergeDef : α → β) : String → Option β :=
  items.foldl (_mapItemsByIdStep idF mergeDef) (fun _ => none)

/-- Object.assign of an empty object, the item and the over record: a key
present on the over record (even carrying the undefined value) wins; the
remaining keys come from the item. -/
def assignNode (item over : NodeRec) : NodeRec :=
  { id := over.id
    radius := over.radius <|> item.radius
    opacity := over.opacity <|> item.opacity
    color := over.color <|> item.color
    stroke := over.stroke <|> item.stroke
    strokeWidth := over.strokeWidth <|> item.strokeWidth
    showLabel := over.showLabel <|> item.showLabel
    x := over.x <|> item.x
    y := over.y <|> item.y
    styles := over.styles <|> item.styles
    labelStyles := over.labelStyles <|> item.labelStyles
    style := over.style <|> item.style
    labelStyle := over.labelStyle <|> item.labelStyle }

/-- hydrateFromMap from the renderer, at node shape: Object.assign of an
empty object, the item and the map entry under the item id — the map
fields win over the positional item fields; a missing entry leaves the
item as is. -/
def _hydrateFromMap (item : NodeRec) (map : String → Option NodeRec) : NodeRec :=
  match map (nodeId item) with
  | some r => assignNode item r
  | none => item

/-- A circle element emitted by the renderer for a node. -/
structure CircleElem where
  key : String
  cx : Option ℚ
  cy : Option ℚ
  r : Option ℚ
  fill : Option String
  opacity : Option ℚ
  stroke : Option String
  strokeWidth : Option ℚ
  deriving DecidableEq

/-- A label element emitted by the renderer for a node. -/
structure LabelElem where
  key : String
  deriving DecidableEq

/-- The circle the renderer emits for one simulation-positioned node after
hydration: position from the positional record, visual attributes from the
hydrated node; an absent or undefined opacity key renders as the undefined
attribute. -/
def circleOf (positionNode node : NodeRec) : CircleElem :=
  { key := nodeId node
    cx := positionNode.x
    cy := positionNode.y
    r := node.radius
    fill := node.color
    opacity := node.opacity.join
    stroke := node.stroke
    strokeWidth := node.strokeWidth }

/-- The node pass of the renderer: walk the simulation-positioned nodes,
hydrate each from the node map, emit its circle, and emit its label
exactly when the global showLabels flag is set or the hydrated showLabel
flag is truthy. Returns the circle list and the label list. -/
def renderNodesStep (showLabels : Bool) (nodeMap : String → Option NodeRec)
    (acc : List CircleElem × List LabelElem) (positionNode : NodeRec) :
    List CircleElem × List LabelElem :=
  let node := _hydrateFromMap positionNode nodeMap
  ( acc.1 ++ [circleOf positionNode node],
    if showLabels || node.showLabel.getD false then
      acc.2 ++ [{ key := nodeId node ++ "-label" }]
    else acc.2 )

/-- The node pass of the renderer: the loop above over every
simulation-positioned node, starting from empty element lists. -/
def renderNodes (showLabels : Bool) (simNodes : List NodeRec)
    (nodeMap : String → Option NodeRec) : List CircleElem × List LabelElem :=
  simNodes.foldl (renderNodesStep showLabels nodeMap) ([], [])

/-- DEFAULT_NODE_STYLES from the interactive overlay. -/
def DEFAULT_NODE_STYLES : StyleObj := [("cursor", "pointer")]

/-- DEFAULT_LABEL_STYLES from the interactive overlay. -/
def DEFAULT_LABEL_STYLES : StyleObj := [("cursor", "pointer")]

/-- Object.assign on style objects: the right operand wins per key. -/
def assignStyles (a b : StyleObj) : StyleObj :=
  a.filter (fun p => !(b.any (fun q => q.1 == p.1))) ++ b

/-- applyOpacity from the interactive overlay render: the opacity argument
defaults to 1 when undefined and is divided by the opacityFactor. -/
def _applyOpacity (opacityFactor : ℚ) (opacity : Option ℚ) : ℚ :=
  opacity.getD 1 / opacityFactor

/-- The per-node styling of the interactive overlay render: Object.assign
of an empty object, the node, and a record that always carries the style,
labelStyle, showLabel and opacity keys. showLabel is set exactly when this
node id equals the selected or the hovered node id; the opacity value is
divided by the opacityFactor when some node is selected or hovered and
this node matches neither, and is copied as read (possibly undefined)
otherwise. -/
def styledNode (opacityFactor : ℚ) (selectedNode hoveredNode : Option NodeRec)
    (node : NodeRec) : NodeRec :=
  { node with
    style := some (assignStyles DEFAULT_NODE_STYLES (node.styles.getD []))
    labelStyle := some (assignStyles DEFAULT_LABEL_STYLES (node.labelStyles.getD []))
    showLabel := some (selectedNode.any (fun s => nodeId s == nodeId node) ||
      hoveredNode.any (fun h => nodeId h == nodeId node))
    opacity := some (
      if (selectedNode.isSome || hoveredNode.isSome) &&
          selectedNode.all (fun s => nodeId s != nodeId node) &&
          hoveredNode.all (fun h => nodeId h != nodeId node) then
        some (_applyOpacity opacityFactor node.opacity.join)
      else node.opacity.join) }

/-- The per-link styling of the interactive overlay render: Object.assign
of an empty object, the link, and a record that always carries the opacity
key, divided by the opacityFactor exactly when some node is selected or
hovered. -/
def styledLink (opacityFactor : ℚ) (selectedNode hoveredNode : Option NodeRec)
    (link : LinkRec) : LinkRec :=
  { link with
    opacity := some (
      if selectedNode.isSome || hoveredNode.isSome then
        some (_applyOpacity opacityFactor link.opacity.join)
      else link.opacity.join) }

/-- The transient state of the interactive overlay. -/
structure OverlayState where
  hoveredNode : Option NodeRec := none
  selectedNode : Option NodeRec := none
  deriving DecidableEq

/-- A callback the overlay click handler fires to the caller. -/
inductive OverlayCallback where
  | select (n : NodeRec)
  | deselect (n : NodeRec)
  deriving DecidableEq

/-- onClickNode from the interactive overlay: when a node was already
selected and its id equals the clicked node id, deselect (selectedNode
becomes null) and fire the deselect callback with the clicked node;
otherwise select the clicked node and fire the select callback with it.
Returns the new state and the callbacks fired, in order. -/
def onClickNode (st : OverlayState) (selectedNode : NodeRec) :
    OverlayState × List OverlayCallback :=
  match st.selectedNode with
  | some previousNode =>
    if nodeId previousNode = nodeId selectedNode then
      ({ st with selectedNode := none }, [OverlayCallback.deselect selectedNode])
    else
      ({ st with selectedNode := some selectedNode },
        [OverlayCallback.select selectedNode])
  | none =>
    ({ st with selectedNode := some selectedNode },
      [OverlayCallback.select selectedNode])

/-- onClickLabel from the interactive overlay: delegates to onClickNode. -/
def onClickLabel (st : OverlayState) (selectedNode : NodeRec) :
    OverlayState × List OverlayCallback :=
  onClickNode st selectedNode

/-- onHoverNode from the interactive overlay. -/
def onHoverNode (st : OverlayState) (hoveredNode : NodeRec) : OverlayState :=
  { st with hoveredNode := some hoveredNode }

/-- onBlurNode from the interactive overlay. -/
def onBlurNode (st : OverlayState) : OverlayState :=
  { st with hoveredNode := none }

/-- A sequence of clicks: thread the state through onClickNode and collect
every callback fired, in order. -/
def clicks (st : OverlayState) (ns : List NodeRec) :
    OverlayState × List OverlayCallback :=
  ns.foldl
    (fun acc n =>
      let r := onClickNode acc.1 n
      (r.1, acc.2 ++ r.2))
    (st, [])

theorem onClickNode_no_match (st : OverlayState) (n : NodeRec)
    (h : ∀ p, st.selectedNode = some p → nodeId p ≠ nodeId n) :
    onClickNode st n =
      ({ st with selectedNode := some n }, [OverlayCallback.select n]) := by
  unfold onClickNode
  cases hsel : st.selectedNode with
  | none => rfl
  | some p => simp [h p hsel]

theorem onClickNode_match (st : OverlayState) (n p : NodeRec)
    (hp : st.selectedNode = some p) (hid : nodeId p = nodeId n) :
    onClickNode st n =
      ({ st with selectedNode := none }, [OverlayCallback.deselect n]) := by
  unfold onClickNode
  simp [hp, hid]

/-- C3: the click transition of the interactive overlay. When a node is
selected and its id equals the clicked node id, the click clears the
selection and fires exactly one deselect callback carrying the clicked
node; otherwise it selects the clicked node and fires the select callback
with it. Hence clicking the same node twice (from a state not already
selecting its id) fires select then exactly one deselect; clicking node a
then node b with distinct ids fires select of a then select of b and never
a deselect; and clicking a label performs the same transition as clicking
its node. -/
theorem c3_click_transitions (st : OverlayState) (n a b : NodeRec)
    (hab : nodeId a ≠ nodeId b) :
    (∀ p, st.selectedNode = some p → nodeId p = nodeId n →
      onClickNode st n =
        ({ st with selectedNode := none }, [OverlayCallback.deselect n])) ∧
    ((∀ p, st.selectedNode = some p → nodeId p ≠ nodeId n) →
      onClickNode st n =
        ({ st with selectedNode := some n }, [OverlayCallback.select n])) ∧
    ((∀ p, st.selectedNode = some p → nodeId p ≠ nodeId n) →
      (clicks st [n, n]).2 =
        [OverlayCallback.select n, OverlayCallback.deselect n] ∧
      (clicks st [n, n]).1.selectedNode = none) ∧
    ((∀ p, st.selectedNode = some p → nodeId p ≠ nodeId a) →
      (clicks st [a, b]).2 =
        [OverlayCallback.select a, OverlayCallback.select b]) ∧
    onClickLabel st n = onClickNode st n := by
  refine ⟨?_, ?_, ?_, ?_, rfl⟩
  · intro p hp hid
    exact onClickNode_match st n p hp hid
  · intro h
    exact onClickNode_no_match st n h
  · intro h
    have h1 := onClickNode_no_match st n h
    have h2 := onClickNode_match { st with selectedNode := some n } n n rfl rfl
    simp [clicks, h1, h2]
  · intro h
    have h1 := onClickNode_no_match st a h
    have h2 := onClickNode_no_match { st with selectedNode := some a } b
      (fun p hp => by
        injection hp with hp
        exact hp ▸ hab)
    simp [clicks, h1, h2]

/-- Witness for C3: starting from the initial overlay state, clicking node
a twice fires select then exactly one deselect and clears the selection;
clicking node a then node b fires the two selects and never a deselect. -/
theorem c3_click_transitions_witness :
    nodeId { id := "a" } ≠ nodeId { id := "b" } ∧
    (clicks { } [{ id := "a" }, { id := "a" }]).2 =
      [OverlayCallback.select { id := "a" }, OverlayCallback.deselect { id := "a" }] ∧
    (clicks { } [{ id := "a" }, { id := "a" }]).1.selectedNode = none ∧
    (clicks { } [{ id := "a" }, { id := "b" }]).2 =
      [OverlayCallback.select { id := "a" }, OverlayCallback.select { id := "b" }] :=
  have hab : nodeId ({ id := "a" } : NodeRec) ≠ nodeId ({ id := "b" } : NodeRec) := by
    decide
  have h := c3_click_transitions { } { id := "a" } { id := "a" } { id := "b" } hab
  ⟨hab,
    (h.2.2.1 (fun p hp => Option.noConfusion hp)).1,
    (h.2.2.1 (fun p hp => Option.noConfusion hp)).2,
    h.2.2.2.1 (fun p hp => Option.noConfusion hp)⟩

theorem _mapItemsById_skip {α β : Type} (idF : α → String) (mergeDef : α → β) :
    ∀ (zs : List α) (m : String → Option β) (k : String),
      (∀ c ∈ zs, idF c ≠ k) →
      List.foldl (_mapItemsByIdStep idF mergeDef) m zs k = m k
  | [], _, _, _ => rfl
  | c :: rest, m, k, h => by
    rw [List.foldl_cons]
    rw [_mapItemsById_skip idF mergeDef rest (_mapItemsByIdStep idF mergeDef m c) k
      (fun d hd => h d (List.mem_cons_of_mem c hd))]
    unfold _mapItemsByIdStep
    exact if_neg (fun he => h c (List.mem_cons_self c rest) he.symm)

/-- C9: when a list of items contains two or more entries under the same
id — here the duplicate a occurs somewhere before b, and b is the last
entry with its id — the id-keyed default-merged map built by mapItemsById
keeps only the merged record of the last such item; the map is a total
function, so the collision is silent, with no error or flag. -/
theorem c9_map_last_write_wins {α β : Type} (idF : α → String) (mergeDef : α → β)
    (xs zs : List α) (a b : α)
    (_ha : a ∈ xs) (_hdup : idF a = idF b)
    (hafter : ∀ c ∈ zs, idF c ≠ idF b) :
    _mapItemsById (xs ++ b :: zs) idF mergeDef (idF b) = some (mergeDef b) := by
  unfold _mapItemsById
  rw [List.foldl_append, List.foldl_cons]
  rw [_mapItemsById_skip idF mergeDef zs _ (idF b) hafter]
  unfold _mapItemsByIdStep
  exact if_pos rfl

/-- Witness for C9: two node records share the id a; the map keeps the
merged record of the second one and not that of the first. -/
theorem c9_map_last_write_wins_witness :
    ({ id := "a", radius := some 1 } : NodeRec) ∈
      [({ id := "a", radius := some 1 } : NodeRec)] ∧
    nodeId { id := "a", radius := some 1 } = nodeId { id := "a", radius := some 2 } ∧
    _mapItemsById
        [{ id := "a", radius := some 1 }, { id := "a", radius := some 2 }]
        nodeId (mergeNodeDefaults NODE_DEFAULTS) "a" =
      some (mergeNodeDefaults NODE_DEFAULTS { id := "a", radius := some 2 }) ∧
    some (mergeNodeDefaults NODE_DEFAULTS { id := "a", radius := some 2 }) ≠
      some (mergeNodeDefaults NODE_DEFAULTS { id := "a", radius := some 1 }) :=
  ⟨List.mem_cons_self _ _, rfl,
    c9_map_last_write_wins nodeId (mergeNodeDefaults NODE_DEFAULTS)
      [{ id := "a", radius := some 1 }] [] { id := "a", radius := some 1 }
      { id := "a", radius := some 2 } (List.mem_cons_self _ _) rfl
      (fun c hc => absurd hc (List.not_mem_nil c)),
    by decide⟩

theorem dim_cond_iff (sel hov : Option NodeRec) (n : NodeRec) :
    ((sel.isSome || hov.isSome) &&
      sel.all (fun s => nodeId s != nodeId n) &&
      hov.all (fun h => nodeId h != nodeId n)) = true ↔
    ((sel.isSome ∨ hov.isSome) ∧
      (∀ s, sel = some s → nodeId s ≠ nodeId n) ∧
      (∀ h, hov = some h → nodeId h ≠ nodeId n)) := by
  cases sel <;> cases hov <;>
    simp [Option.all, Option.isSome, bne_iff_ne]

/-- C4: the effective opacity a styled node carries. For a node with its
own numeric opacity q, the interactive overlay divides q by the
opacityFactor exactly when some node is selected or hovered and this node
matches neither by id, and leaves q unchanged otherwise. In the concrete
scenario, with opacityFactor 4 and nodes of base opacity 1, hovering node
a renders the other node b at opacity exactly one quarter while the
hovered node a itself retains opacity 1. -/
theorem c4_node_opacity (f : ℚ) (sel hov : Option NodeRec) (n a b : NodeRec) (q : ℚ)
    (hq : n.opacity = some (some q))
    (ha : a.opacity = some (some 1)) (hb : b.opacity = some (some 1))
    (hab : nodeId a ≠ nodeId b) :
    (((sel.isSome ∨ hov.isSome) ∧
        (∀ s, sel = some s → nodeId s ≠ nodeId n) ∧
        (∀ h, hov = some h → nodeId h ≠ nodeId n)) →
      (styledNode f sel hov n).opacity = some (some (q / f))) ∧
    (¬((sel.isSome ∨ hov.isSome) ∧
        (∀ s, sel = some s → nodeId s ≠ nodeId n) ∧
        (∀ h, hov = some h → nodeId h ≠ nodeId n)) →
      (styledNode f sel hov n).opacity = some (some q)) ∧
    (styledNode 4 none (some a) b).opacity = some (some (1 / 4)) ∧
    (styledNode 4 none (some a) a).opacity = some (some 1) := by
  have key : ∀ (f' : ℚ) (sel' hov' : Option NodeRec) (n' : NodeRec) (q' : ℚ),
      n'.opacity = some (some q') →
      (styledNode f' sel' hov' n').opacity =
        some (if (sel'.isSome || hov'.isSome) &&
            sel'.all (fun s => nodeId s != nodeId n') &&
            hov'.all (fun h => nodeId h != nodeId n') then
          some (q' / f') else some q') := by
    intro f' sel' hov' n' q' hq'
    unfold styledNode _applyOpacity
    simp only [hq', Option.join]
    rfl
  refine ⟨?_, ?_, ?_, ?_⟩
  · intro hc
    rw [key f sel hov n q hq,
      if_pos ((dim_cond_iff sel hov n).mpr hc)]
  · intro hc
    rw [key f sel hov n q hq, if_neg]
    intro hbool
    exact hc ((dim_cond_iff sel hov n).mp hbool)
  · rw [key 4 none (some a) b 1 hb, if_pos]
    rw [dim_cond_iff]
    exact ⟨Or.inr rfl, fun s hs => Option.noConfusion hs,
      fun h hh => by injection hh with hh; exact hh ▸ hab⟩
  · rw [key 4 none (some a) a 1 ha, if_neg]
    intro hbool
    have := ((dim_cond_iff none (some a) a).mp hbool).2.2 a rfl
    exact this rfl

/-- C5: the effective opacity a styled link carries. Whenever some node is
selected or hovered, every link (none exempted) has its own numeric
opacity q divided by the opacityFactor; when no node is selected or
hovered, the link opacity is unchanged. -/
theorem c5_link_opacity (f : ℚ) (sel hov : Option NodeRec) (l : LinkRec) (q : ℚ)
    (hq : l.opacity = some (some q)) :
    ((sel.isSome ∨ hov.isSome) →
      (styledLink f sel hov l).opacity = some (some (q / f))) ∧
    (sel = none → hov = none →
      (styledLink f sel hov l).opacity = some (some q)) := by
  constructor
  · intro hfocus
    unfold styledLink _applyOpacity
    have hb : (sel.isSome || hov.isSome) = true := by
      cases hfocus with
      | inl h => simp [h]
      | inr h => simp [h]
    simp [hb, hq, Option.join]
  · intro hs hh
    subst hs
    subst hh
    unfold styledLink
    simp [hq, Option.join]

/-- Witness for C4: the overlay with opacityFactor 4: hovering node a
dims node b to one quarter and leaves node a at opacity 1. -/
theorem c4_node_opacity_witness :
    (styledNode 4 none (some { id := "a", opacity := some (some 1) })
        { id := "b", opacity := some (some 1) }).opacity = some (some (1 / 4)) ∧
    (styledNode 4 none (some { id := "a", opacity := some (some 1) })
        { id := "a", opacity := some (some 1) }).opacity = some (some 1) :=
  have h := c4_node_opacity 4 none (some { id := "a", opacity := some (some 1) })
    { id := "b", opacity := some (some 1) }
    { id := "a", opacity := some (some 1) }
    { id := "b", opacity := some (some 1) } 1 rfl rfl rfl (by decide)
  ⟨h.2.2.1, h.2.2.2⟩

/-- Witness for C5: with opacityFactor 4 and a link of opacity 0.6,
hovering some node dims the link to 0.15, and with nothing focused the
link keeps opacity 0.6. -/
theorem c5_link_opacity_witness :
    (styledLink 4 none (some { id := "a" })
        { source := Endpoint.str "a", target := Endpoint.str "b",
          opacity := some (some (3 / 5)) }).opacity = some (some (3 / 5 / 4)) ∧
    (styledLink 4 none none
        { source := Endpoint.str "a", target := Endpoint.str "b",
          opacity := some (some (3 / 5)) }).opacity = some (some (3 / 5)) :=
  ⟨(c5_link_opacity 4 none (some { id := "a" })
      { source := Endpoint.str "a", target := Endpoint.str "b",
        opacity := some (some (3 / 5)) } (3 / 5) rfl).1 (Or.inr rfl),
    (c5_link_opacity 4 none none
      { source := Endpoint.str "a", target := Endpoint.str "b",
        opacity := some (some (3 / 5)) } (3 / 5) rfl).2 rfl rfl⟩

theorem renderNodes_labels_aux (showLabels : Bool) (nodeMap : String → Option NodeRec) :
    ∀ (simNodes : List NodeRec) (acc : List CircleElem × List LabelElem),
      (List.foldl (renderNodesStep showLabels nodeMap) acc simNodes).2 =
        acc.2 ++ (simNodes.filter
            (fun p => showLabels || ((_hydrateFromMap p nodeMap).showLabel.getD false))).map
          (fun p => { key := nodeId (_hydrateFromMap p nodeMap) ++ "-label" })
  | [], acc => by simp
  | p :: rest, acc => by
    rw [List.foldl_cons, renderNodes_labels_aux showLabels nodeMap rest]
    cases hc : (showLabels || ((_hydrateFromMap p nodeMap).showLabel.getD false)) with
    | true => simp [renderNodesStep, hc, List.filter_cons]
    | false => simp [renderNodesStep, hc, List.filter_cons]

/-- The two-node graph of the label scenario, styled by the overlay with
nothing selected or hovered, then keyed into the renderer node map. -/
def idleNodeMap : String → Option NodeRec :=
  _mapItemsById
    (List.map (styledNode 4 none none) [{ id := "a" }, { id := "b" }])
    nodeId (mergeNodeDefaults NODE_DEFAULTS)

/-- The two-node graph of the label scenario, styled by the overlay with
node a hovered, then keyed into the renderer node map. -/
def hoverNodeMap : String → Option NodeRec :=
  _mapItemsById
    (List.map (styledNode 4 none (some { id := "a" })) [{ id := "a" }, { id := "b" }])
    nodeId (mergeNodeDefaults NODE_DEFAULTS)

/-- C7: a label element is emitted for a simulation-positioned node if and
only if the global showLabels flag is set or the hydrated node showLabel
flag is truthy (first conjunct, as a filter equation over the emitted
list); the overlay sets showLabel exactly for the node whose id matches
the selected or the hovered node (second conjunct); with showLabels false
and nothing focused the two-node scenario emits zero label elements, and
with node a hovered it emits exactly one label element, the one for a. -/
theorem c7_label_emission (showLabels : Bool) (simNodes : List NodeRec)
    (nodeMap : String → Option NodeRec) (f : ℚ) (sel hov : Option NodeRec)
    (n : NodeRec) :
    ((renderNodes showLabels simNodes nodeMap).2 =
      (simNodes.filter
          (fun p => showLabels || ((_hydrateFromMap p nodeMap).showLabel.getD false))).map
        (fun p => { key := nodeId (_hydrateFromMap p nodeMap) ++ "-label" })) ∧
    ((styledNode f sel hov n).showLabel = some true ↔
      ((∃ s, sel = some s ∧ nodeId s = nodeId n) ∨
        (∃ h, hov = some h ∧ nodeId h = nodeId n))) ∧
    (renderNodes false [{ id := "a" }, { id := "b" }] idleNodeMap).2 = [] ∧
    (renderNodes false [{ id := "a" }, { id := "b" }] hoverNodeMap).2 =
      [{ key := "a-label" }] := by
  refine ⟨renderNodes_labels_aux showLabels nodeMap simNodes ([], []), ?_, ?_, ?_⟩
  · unfold styledNode
    cases sel <;> cases hov <;> simp [Option.any, nodeId]
  · decide
  · decide

/-- C8: hydrating through the renderer default-merged node map. For a node
record carrying only an id, the map entry merged with the defaults is
exactly the documented default visual record — radius 5, opacity 1, the
default color and stroke, strokeWidth 1.5, showLabel false — and hydrating any
positional record with that id yields those defaults: the map fields win
over whatever visual fields the positional item carries, while the
position fields x and y survive from the positional item. -/
theorem c8_default_hydration (i : String) (p : NodeRec) (hp : nodeId p = i) :
    (_hydrateFromMap p
        (_mapItemsById [{ id := i }] nodeId (mergeNodeDefaults NODE_DEFAULTS))).radius =
      some 5 ∧
    (_hydrateFromMap p
        (_mapItemsById [{ id := i }] nodeId (mergeNodeDefaults NODE_DEFAULTS))).opacity =
      some (some 1) ∧
    (_hydrateFromMap p
        (_mapItemsById [{ id := i }] nodeId (mergeNodeDefaults NODE_DEFAULTS))).color =
      some "#333" ∧
    (_hydrateFromMap p
        (_mapItemsById [{ id := i }] nodeId (mergeNodeDefaults NODE_DEFAULTS))).stroke =
      some "#fff" ∧
    (_hydrateFromMap p
        (_mapItemsById [{ id := i }] nodeId
          (mergeNodeDefaults NODE_DEFAULTS))).strokeWidth = some (3 / 2) ∧
    (_hydrateFromMap p
        (_mapItemsById [{ id := i }] nodeId (mergeNodeDefaults NODE_DEFAULTS))).showLabel =
      some false ∧
    (_hydrateFromMap p
        (_mapItemsById [{ id := i }] nodeId (mergeNodeDefaults NODE_DEFAULTS))).id = i ∧
    (_hydrateFromMap p
        (_mapItemsById [{ id := i }] nodeId (mergeNodeDefaults NODE_DEFAULTS))).x = p.x ∧
    (_hydrateFromMap p
        (_mapItemsById [{ id := i }] nodeId (mergeNodeDefaults NODE_DEFAULTS))).y = p.y := by
  have hmap : _mapItemsById [({ id := i } : NodeRec)] nodeId
      (mergeNodeDefaults NODE_DEFAULTS) (nodeId p) =
      some (mergeNodeDefaults NODE_DEFAULTS { id := i }) := by
    have hp' : p.id = i := hp
    unfold _mapItemsById _mapItemsByIdStep
    simp [hp', nodeId]
  unfold _hydrateFromMap
  rw [hmap]
  unfold assignNode mergeNodeDefaults NODE_DEFAULTS
  simp

/-- Witness for C8: the default record on a bare node with id a, hydrated
onto a positional record that carries a conflicting radius and a position:
the defaults win and the position survives. -/
theorem c8_default_hydration_witness :
    nodeId { id := "a", radius := some 99, x := some 10 } = "a" ∧
    (_hydrateFromMap { id := "a", radius := some 99, x := some 10 }
        (_mapItemsById [{ id := "a" }] nodeId (mergeNodeDefaults NODE_DEFAULTS))).radius =
      some 5 ∧
    (_hydrateFromMap { id := "a", radius := some 99, x := some 10 }
        (_mapItemsById [{ id := "a" }] nodeId (mergeNodeDefaults NODE_DEFAULTS))).x =
      some 10 :=
  have h := c8_default_hydration "a" { id := "a", radius := some 99, x := some 10 } rfl
  ⟨rfl, h.1, h.2.2.2.2.2.2.2.1⟩

/-- C10: the interactive overlay always writes an explicit opacity key
onto the styled node. For a node with no opacity field of its own: with
nothing selected or hovered the written value is the undefined value, and
because the default merge and the hydration let a present key override the
default record, the emitted circle carries the undefined opacity rather
than the default 1; whereas when the node is dimmed, the missing opacity
is treated as 1, yielding 1 divided by the opacityFactor. -/
theorem c10_explicit_undefined_opacity (f : ℚ) (sel hov : Option NodeRec)
    (n p : NodeRec) (hn : n.opacity = none) (hp : nodeId p = nodeId n) :
    ((styledNode f sel hov n).opacity).isSome = true ∧
    (styledNode f none none n).opacity = some none ∧
    (circleOf p (_hydrateFromMap p
        (_mapItemsById [styledNode f none none n] nodeId
          (mergeNodeDefaults NODE_DEFAULTS)))).opacity = none ∧
    (((sel.isSome ∨ hov.isSome) ∧
        (∀ s, sel = some s → nodeId s ≠ nodeId n) ∧
        (∀ h, hov = some h → nodeId h ≠ nodeId n)) →
      (styledNode f sel hov n).opacity = some (some (1 / f))) := by
  have hidle : (styledNode f none none n).opacity = some none := by
    unfold styledNode
    simp [hn, Option.join]
  refine ⟨rfl, hidle, ?_, ?_⟩
  · have hmap : _mapItemsById [styledNode f none none n] nodeId
        (mergeNodeDefaults NODE_DEFAULTS) (nodeId p) =
        some (mergeNodeDefaults NODE_DEFAULTS (styledNode f none none n)) := by
      unfold _mapItemsById _mapItemsByIdStep
      have hid : nodeId (styledNode f none none n) = nodeId n := rfl
      simp [hp, hid]
    unfold circleOf _hydrateFromMap
    rw [hmap]
    unfold assignNode mergeNodeDefaults
    simp [hidle, Option.join]
  · intro hc
    unfold styledNode _applyOpacity
    rw [if_pos ((dim_cond_iff sel hov n).mpr hc)]
    simp [hn, Option.join]

/-- Witness for C10: node b has no opacity field; with nothing focused its
styled opacity key carries the undefined value and the emitted circle has
the undefined opacity; with node x hovered, b is dimmed to 1 over 4. -/
theorem c10_explicit_undefined_opacity_witness :
    (({ id := "b" } : NodeRec).opacity = none) ∧
    (styledNode 4 none none { id := "b" }).opacity = some none ∧
    (circleOf { id := "b" } (_hydrateFromMap { id := "b" }
        (_mapItemsById [styledNode 4 none none { id := "b" }] nodeId
          (mergeNodeDefaults NODE_DEFAULTS)))).opacity = none ∧
    (styledNode 4 none (some { id := "x" }) { id := "b" }).opacity =
      some (some (1 / 4)) :=
  have h := c10_explicit_undefined_opacity 4 none (some { id := "x" })
    { id := "b" } { id := "b" } rfl rfl
  ⟨rfl, h.2.1, h.2.2.1,
    h.2.2.2 ⟨Or.inr rfl, fun s hs => Option.noConfusion hs,
      fun x hx => by injection hx with hx; exact hx ▸ (by decide)⟩⟩

end ReactVisForce
